import Mathlib

/-!
Verification of the LLM provider/model selection component (`src/services/aiService.ts`),
the fix-recommendation cycler (`src/commands/pipelines/AIStepFixer.ts`) and the
credential-registration command (`registerLLMAPIKey`) of the vscode-zenml fragment.

JavaScript strings are modelled as Lean `String` and, where the code manipulates them
character by character (`split`, `replaceAll`, `slice`, `startsWith`, case mapping),
through their underlying `List Char`. The process environment and the secret store are
modelled as partial maps `String → Option String`; JavaScript truthiness of a string
lookup (`undefined` and the empty string are falsy) is `jsTruthy`. Fallible operations
return `Except`.
-/

/-- The backtick character, written by code point to keep source text plain. -/
def tickChar : Char := Char.ofNat 96

/-- Embedding of `response.split('```')` (aiService.ts line 92): splits at each
leftmost, non-overlapping occurrence of three consecutive backticks, like
JavaScript `String.prototype.split` with separator made of three backticks. -/
def splitTicks : List Char → List (List Char)
  | [] => [[]]
  | [c] => [[c]]
  | [c1, c2] => [[c1, c2]]
  | c1 :: c2 :: c3 :: rest =>
    if c1 = tickChar ∧ c2 = tickChar ∧ c3 = tickChar then
      [] :: splitTicks rest
    else
      match splitTicks (c2 :: c3 :: rest) with
      | [] => [[c1]]
      | seg :: segs => (c1 :: seg) :: segs

/-- Embedding of `configuration.split('.')` (aiService.ts line 67). -/
def splitDot : List Char → List (List Char)
  | [] => [[]]
  | '.' :: rest => [] :: splitDot rest
  | c :: rest =>
    match splitDot rest with
    | [] => [[c]]
    | seg :: segs => (c :: seg) :: segs

/-- Embedding of `str.replaceAll('.', '%2E')` (aiService.ts line 98), char level. -/
def encodeChars : List Char → List Char
  | [] => []
  | '.' :: rest => '%' :: '2' :: 'E' :: encodeChars rest
  | c :: rest => c :: encodeChars rest

/-- Embedding of `str.replaceAll('%2E', '.')` (aiService.ts line 102), char level:
replaces each leftmost, non-overlapping occurrence. -/
def decodeChars : List Char → List Char
  | [] => []
  | '%' :: '2' :: 'E' :: rest => '.' :: decodeChars rest
  | c :: rest => c :: decodeChars rest

/-- Whether `pat` occurs as a contiguous subsequence of a character list. -/
def containsSeq (pat : List Char) : List Char → Bool
  | [] => pat.isPrefixOf []
  | c :: rest => pat.isPrefixOf (c :: rest) || containsSeq pat rest

/-- JavaScript `toUpperCase` on the ASCII strings this code uses. -/
def toUpperJS (s : String) : String := String.mk (s.data.map Char.toUpper)

/-- JavaScript `toLowerCase` on the ASCII strings this code uses. -/
def toLowerJS (s : String) : String := String.mk (s.data.map Char.toLower)

/-- JavaScript truthiness of an optional string: `undefined` and `''` are falsy. -/
def jsTruthy : Option String → Bool
  | none => false
  | some s => !(s == "")

/-- `encode` of `AIService` (aiService.ts lines 97-99). -/
def encode (s : String) : String := String.mk (encodeChars s.data)

/-- `decode` of `AIService` (aiService.ts lines 101-103). -/
def decode (s : String) : String := String.mk (decodeChars s.data)

/-- `supportedLLMProviders` (aiService.ts line 21). -/
def supportedLLMProviders : List String := ["anthropic", "gemini", "openai"]

/-- `supportedAnthropicModels` (aiService.ts lines 24-28). -/
def supportedAnthropicModels : List String :=
  ["claude-3-5-sonnet-20240620", "claude-3-opus-20240229", "claude-3-haiku-20240307"]

/-- `supportedGeminiModels` (aiService.ts line 29). -/
def supportedGeminiModels : List String :=
  ["gemini-1.5-pro", "gemini-1.5-flash", "gemini-1.0-pro"]

/-- `supportedOpenAIModels` (aiService.ts line 30). -/
def supportedOpenAIModels : List String :=
  ["gpt-4o", "gpt-4o-mini", "gpt-4-turbo", "gpt-3.5-turbo"]

/-- The `supportedModels` record of `AIService` (aiService.ts lines 48-52) as a map
from provider name to allowed model list (unknown keys give the empty list; the
TypeScript record has exactly the three provider keys). -/
def supportedModels (provider : String) : List String :=
  if provider = "anthropic" then supportedAnthropicModels
  else if provider = "gemini" then supportedGeminiModels
  else if provider = "openai" then supportedOpenAIModels
  else []

/-- The union of the provider and model enumerations of aiService.ts. -/
def allProviderModelStrings : List String :=
  supportedLLMProviders ++ supportedAnthropicModels ++ supportedGeminiModels ++
    supportedOpenAIModels

/-- `extractPythonSnippets` (aiService.ts lines 90-95): split the response on the
three-backtick fence token, keep the segments that start with `python`, and drop the
first 7 characters of each kept segment (`slice(7)`). -/
def extractPythonSnippets (response : String) : List String :=
  ((splitTicks response.data).filter (fun seg => "python".data.isPrefixOf seg)).map
    (fun seg => String.mk (seg.drop 7))

/-- The in-memory selection state of `AIService` (`provider`, `model`) together with
the `zenml.llm-model` configuration value. -/
structure AIServiceState where
  provider : Option String
  model : Option String
  config : Option String
deriving DecidableEq

/-- `setModel` (aiService.ts lines 191-196): decodes the pair into the in-memory
fields and persists `encode(provider) + '.' + encode(model)` to configuration.
The method reads no prior state: every field it touches is overwritten. -/
def setModel (provider model : String) : AIServiceState :=
  { provider := some (decode provider)
    model := some (decode model)
    config := some (encode provider ++ "." ++ encode model) }

/-- The configuration read of the `AIService` constructor (aiService.ts lines 54-70),
called `getCurrentSelection` in the specification: with no configured value both
fields are unset; otherwise the value is split on `'.'` and each of the first two
parts is decoded (a missing part leaves the field unset, where the JavaScript
destructuring would produce `undefined`). -/
def getCurrentSelection (config : Option String) : Option String × Option String :=
  match config with
  | none => (none, none)
  | some c =>
    ((((splitDot c.data).map String.mk).get? 0).map decode,
     (((splitDot c.data).map String.mk).get? 1).map decode)

/-- Partial map modelling `process.env` and the secret store. -/
def Env : Type := String → Option String

/-- The environment variable `setAPIKey` checks (aiService.ts line 77). -/
def readEnvVar (provider : String) : String := toUpperJS provider ++ "_API_KEY"

/-- The secret-store key `setAPIKey` reads (aiService.ts line 78). -/
def readSecretKey (provider : String) : String := "zenml." ++ provider ++ ".key"

/-- `setAPIKey` (aiService.ts lines 72-88), the spec's `resolveCredential`: with no
provider it returns at once; otherwise it reads the stored secret, copies it into the
environment when the environment variable is falsy and the secret truthy, and throws
a missing-credential error naming the provider when both are falsy. The result is the
process environment after the call, or the thrown message. -/
def setAPIKey (env secrets : Env) (provider : Option String) : Except String Env :=
  match provider with
  | none => Except.ok env
  | some p =>
    if p = "" then Except.ok env
    else
      let apiKey := secrets (readSecretKey p)
      let env1 : Env :=
        if jsTruthy (env (readEnvVar p)) = false ∧ jsTruthy apiKey = true then
          fun k => if k = readEnvVar p then apiKey else env k
        else env
      if jsTruthy (env1 (readEnvVar p)) = false ∧ jsTruthy apiKey = false then
        Except.error ("No " ++ p ++ " API key configured. Please add an environment variable or save a key through the command palette above and try again.")
      else
        Except.ok env1

/-- A parsed chat response (aiService.ts lines 38-41, 173-180). -/
structure FixMyPipelineResponse where
  message : String
  code : List (String × String)
deriving DecidableEq

/-- Outcome of the external chat-completion call: an exception, or a completion whose
message content is `null` or a string. -/
inductive NetworkOutcome where
  | throws
  | completion (content : Option String)
deriving DecidableEq

/-- Observable outcome of one `fixMyPipelineRequest` call: the returned value and
which side effects ran. -/
structure FixOutcome where
  result : Option FixMyPipelineResponse
  selectLLMCalled : Bool
  errorMessages : List String
  registerKeyCmdCalled : Bool
  networkCalled : Bool

/-- `fixMyPipelineRequest` (aiService.ts lines 113-181): aborts with a selection
prompt and an error message when provider or model is unset; aborts with the thrown
message and the register-key command when `setAPIKey` throws; then issues the one
chat call, mapping an exception to a generic error, a `null` content to a silent
empty return, and a textual content to the parsed response. -/
def fixMyPipelineRequest (provider model : Option String) (env secrets : Env)
    (network : NetworkOutcome) : FixOutcome :=
  if jsTruthy provider = false ∨ jsTruthy model = false then
    { result := none
      selectLLMCalled := true
      errorMessages := ["No AI model selected. Please select one through the command palette above and try again."]
      registerKeyCmdCalled := false
      networkCalled := false }
  else
    match setAPIKey env secrets provider with
    | Except.error msg =>
      { result := none
        selectLLMCalled := false
        errorMessages := [msg]
        registerKeyCmdCalled := true
        networkCalled := false }
    | Except.ok _ =>
      match network with
      | NetworkOutcome.throws =>
        { result := none
          selectLLMCalled := false
          errorMessages := ["Something went wrong. Please verify your API key is correct and active."]
          registerKeyCmdCalled := false
          networkCalled := true }
      | NetworkOutcome.completion none =>
        { result := none
          selectLLMCalled := false
          errorMessages := []
          registerKeyCmdCalled := false
          networkCalled := true }
      | NetworkOutcome.completion (some response) =>
        { result := some
            { message := response
              code := (extractPythonSnippets response).map (fun s => ("python", s)) }
          selectLLMCalled := false
          errorMessages := []
          registerKeyCmdCalled := false
          networkCalled := true }

/-- One entry of `AIStepFixer.codeRecommendations` (AIStepFixer.ts lines 10-15). -/
structure CodeRecommendation where
  filePath : String
  code : List String
  sourceCode : String
  currentCodeIndex : Nat
deriving DecidableEq

/-- Arguments of one `editStepFile` call (AIStepFixer.ts lines 53-58): the indexed
candidate may be out of range in JavaScript (`undefined`), hence `Option`;
`openDiff` is the `open` parameter. -/
structure EditCall where
  filePath : String
  newContent : Option String
  oldContent : String
  openDiff : Bool
deriving DecidableEq

/-- `createCodeRecommendation` (AIStepFixer.ts lines 36-39): pushes a new entry with
`currentCodeIndex = 0` onto the table and calls `editStepFile` with `code[0]` and the
default `open = true`. Returns the new table and the edit call made. -/
def createCodeRecommendation (table : List CodeRecommendation) (filePath : String)
    (code : List String) (sourceCode : String) : List CodeRecommendation × EditCall :=
  (table ++ [{ filePath := filePath, code := code, sourceCode := sourceCode,
               currentCodeIndex := 0 }],
   { filePath := filePath, newContent := code.get? 0, oldContent := sourceCode,
     openDiff := true })

/-- `updateCodeRecommendation` (AIStepFixer.ts lines 41-51): finds the first entry
for `filePath` (`Array.prototype.find`); if none, does nothing; otherwise calls
`editStepFile` with `code[next]` where `next` is `currentCodeIndex + 1` when that is
still in range and `0` otherwise, and with `open = false`. The method assigns to no
field of the entry, so the table is returned unchanged. -/
def updateCodeRecommendation (table : List CodeRecommendation) (filePath : String) :
    List CodeRecommendation × Option EditCall :=
  match table.find? (fun r => r.filePath == filePath) with
  | none => (table, none)
  | some rec =>
    (table,
     some { filePath := filePath
            newContent := rec.code.get?
              (if rec.currentCodeIndex + 1 < rec.code.length then
                rec.currentCodeIndex + 1 else 0)
            oldContent := rec.sourceCode
            openDiff := false })

/-- The secret-store key written by `registerLLMAPIKey` (part_000 line 35). -/
def registerSecretKey (label : String) : String := "zenml." ++ toLowerJS label ++ ".key"

/-- The environment variable written by `registerLLMAPIKey` (part_000 line 58). -/
def registerEnvVar (label : String) : String := toUpperJS label ++ "_API_KEY"

/-- The quick-pick labels offered by `registerLLMAPIKey` (part_000 lines 18-22). -/
def registerLabels : List String := ["Anthropic", "Gemini", "OpenAI"]

/-- The state effect of a completed `registerLLMAPIKey` run (part_000 lines 34-58)
for the picked `label` and the entered `apiKey`: the key is stored in the secret
store under `registerSecretKey label` and mirrored into the process environment
under `registerEnvVar label`. Returns the new environment and secret store; the
interactive prompts and the cancellation paths, which commit no state, are elided. -/
def registerLLMAPIKey (env secrets : Env) (label : String) (apiKey : String) :
    Env × Env :=
  ((fun k => if k = registerEnvVar label then some apiKey else env k),
   (fun k => if k = registerSecretKey label then some apiKey else secrets k))

/-- A tracked recommendation with 3 candidates standing at `currentCodeIndex = 2`,
used to exercise the wrap-around of `updateCodeRecommendation`. -/
def recAtLastIndex : CodeRecommendation :=
  { filePath := "step.py", code := ["fixA", "fixB", "fixC"], sourceCode := "orig",
    currentCodeIndex := 2 }

/-- An empty environment / secret store. -/
def emptyStore : Env := fun _ => none

/-- A process environment with only `ANTHROPIC_API_KEY` set. -/
def envWithAnthropicKey : Env :=
  fun k => if k = "ANTHROPIC_API_KEY" then some "sk-env" else none

/-- A secret store holding only the `zenml.anthropic.key` entry. -/
def storeWithAnthropicKey : Env :=
  fun k => if k = "zenml.anthropic.key" then some "sk-stored" else none

/-- A string with no three-backtick occurrence splits into a single segment. -/
theorem splitTicks_of_no_tick (s : List Char) (h : containsSeq "```".data s = false) :
    splitTicks s = [s] := by
  induction s using splitTicks.induct with
  | case1 => rfl
  | case2 c => rfl
  | case3 c1 c2 => rfl
  | case4 c1 c2 c3 rest hticks ih =>
    exfalso
    rcases hticks with ⟨h1, h2, h3⟩
    subst h1; subst h2; subst h3
    simp [containsSeq, List.isPrefixOf, tickChar] at h
  | case5 c1 c2 c3 rest hne hnil ih =>
    exfalso
    rw [containsSeq.eq_2, Bool.or_eq_false_iff] at h
    rw [ih h.2] at hnil
    exact List.cons_ne_nil _ _ hnil
  | case6 c1 c2 c3 rest hne seg segs hcons ih =>
    rw [containsSeq.eq_2, Bool.or_eq_false_iff] at h
    rw [splitTicks.eq_4, if_neg hne, ih h.2]

/-- An input with no fence token and no leading `python` yields no snippet. -/
theorem extractPythonSnippets_of_plain (s : String)
    (h1 : containsSeq "```".data s.data = false)
    (h2 : "python".data.isPrefixOf s.data = false) : extractPythonSnippets s = [] := by
  unfold extractPythonSnippets
  rw [splitTicks_of_no_tick s.data h1]
  simp [h2]

/-- The environment variable already set is preserved and the call succeeds. -/
theorem setAPIKey_env_present (env secrets : Env) (p v : String) (hp : p ≠ "")
    (hv : v ≠ "") (h : env (readEnvVar p) = some v) :
    setAPIKey env secrets (some p) = Except.ok env := by
  simp only [setAPIKey]
  rw [if_neg hp]
  simp [h, jsTruthy, hv]

/-- With no environment value and a stored secret, the variable is set to it. -/
theorem setAPIKey_from_store (env secrets : Env) (p w : String) (hp : p ≠ "")
    (hw : w ≠ "") (he : env (readEnvVar p) = none)
    (hs : secrets (readSecretKey p) = some w) :
    setAPIKey env secrets (some p) =
      Except.ok (fun k => if k = readEnvVar p then some w else env k) := by
  simp only [setAPIKey]
  rw [if_neg hp]
  simp [hs, he, jsTruthy, hw]

/-- With neither source set, the call throws the message naming the provider. -/
theorem setAPIKey_missing (env secrets : Env) (p : String) (hp : p ≠ "")
    (he : env (readEnvVar p) = none) (hs : secrets (readSecretKey p) = none) :
    setAPIKey env secrets (some p) =
      Except.error ("No " ++ p ++ " API key configured. Please add an environment variable or save a key through the command palette above and try again.") := by
  simp only [setAPIKey]
  rw [if_neg hp]
  simp [hs, he, jsTruthy]

/-- Claim C1: `updateCodeRecommendation` on a tracked recommendation with a non-empty
candidate list computes the wrapped next index and applies that candidate as a
non-previewing edit, but it never writes the stored `currentCodeIndex` back: the
table is returned unchanged by every call, and in particular with 3 candidates and
`currentCodeIndex = 2` the applied candidate is `code[0]` while the stored index
stays 2 instead of becoming 0, contradicting the claim's update of the index. -/
theorem claim_C1_currentIndex_never_updated :
    (∀ table filePath, (updateCodeRecommendation table filePath).1 = table) ∧
    (updateCodeRecommendation [recAtLastIndex] "step.py").2 =
      some { filePath := "step.py", newContent := some "fixA", oldContent := "orig",
             openDiff := false } ∧
    (updateCodeRecommendation [recAtLastIndex] "step.py").1.map
        (fun r => r.currentCodeIndex) = [2] := by
  refine ⟨fun table filePath => ?_, by decide, by decide⟩
  unfold updateCodeRecommendation
  cases table.find? (fun r => r.filePath == filePath) <;> rfl

/-- Claim C2, counterexample: creating a recommendation twice for the same
`filePath` leaves two tracked entries, and the lookup used by
`updateCodeRecommendation` returns the first-created entry, so the subsequent edit
uses the older candidates — the claim's at-most-one-entry invariant and its
most-recent-candidates consequence both fail on this input. -/
theorem claim_C2_counterexample :
    ((createCodeRecommendation (createCodeRecommendation [] "step.py" ["fixA"] "origA").1
        "step.py" ["fixB"] "origB").1.filter (fun r => r.filePath == "step.py")).length = 2 ∧
    (createCodeRecommendation (createCodeRecommendation [] "step.py" ["fixA"] "origA").1
        "step.py" ["fixB"] "origB").1.find? (fun r => r.filePath == "step.py") =
      some { filePath := "step.py", code := ["fixA"], sourceCode := "origA",
             currentCodeIndex := 0 } ∧
    (updateCodeRecommendation (createCodeRecommendation
        (createCodeRecommendation [] "step.py" ["fixA"] "origA").1
        "step.py" ["fixB"] "origB").1 "step.py").2 =
      some { filePath := "step.py", newContent := some "fixA", oldContent := "origA",
             openDiff := false } := by decide

/-- Claim C2 as amended: `createCodeRecommendation` appends a new entry with index 0
and does not remove earlier entries, so the table may hold several entries per
`filePath`, and lookups (as performed by `updateCodeRecommendation`) return the
earliest-created entry for that path. -/
theorem claim_C2_amended_append_and_first_lookup :
    (∀ table filePath code sourceCode,
      (createCodeRecommendation table filePath code sourceCode).1 =
        table ++ [{ filePath := filePath, code := code, sourceCode := sourceCode,
                    currentCodeIndex := 0 }]) ∧
    (∀ filePath c1 s1 c2 s2,
      (createCodeRecommendation (createCodeRecommendation [] filePath c1 s1).1
          filePath c2 s2).1.find? (fun r => r.filePath == filePath) =
        some { filePath := filePath, code := c1, sourceCode := s1,
               currentCodeIndex := 0 }) := by
  refine ⟨fun _ _ _ _ => rfl, fun filePath c1 s1 c2 s2 => ?_⟩
  simp [createCodeRecommendation, List.find?]

/-- Claim C3, counterexample: `gpt-4o` is not an allowed anthropic model, yet
`setModel` persists the pair `anthropic.gpt-4o` to configuration and updates the
in-memory state — nothing fails or rejects the pair. -/
theorem claim_C3_counterexample :
    (supportedModels "anthropic").contains "gpt-4o" = false ∧
    setModel "anthropic" "gpt-4o" =
      { provider := some "anthropic", model := some "gpt-4o",
        config := some "anthropic.gpt-4o" } := by decide

/-- Claim C3 as amended: `setModel` performs no membership validation — for every
provider and every model outside that provider's allowed set it still persists the
encoded pair to configuration and updates the in-memory state to the decoded pair. -/
theorem claim_C3_amended (provider model : String)
    (_h : (supportedModels provider).contains model = false) :
    setModel provider model =
      { provider := some (decode provider), model := some (decode model),
        config := some (encode provider ++ "." ++ encode model) } := rfl

/-- Claim C3, witness: the amended statement applied to the invalid pair
`(anthropic, gpt-4o)`. -/
theorem claim_C3_amended_witness :
    (supportedModels "anthropic").contains "gpt-4o" = false ∧
    setModel "anthropic" "gpt-4o" =
      { provider := some (decode "anthropic"), model := some (decode "gpt-4o"),
        config := some (encode "anthropic" ++ "." ++ encode "gpt-4o") } :=
  ⟨by decide, claim_C3_amended "anthropic" "gpt-4o" (by decide)⟩

/-- Claim C4: `setAPIKey` (the spec's `resolveCredential`): a non-empty environment
variable is preserved unchanged and the call succeeds; with the variable unset and a
non-empty stored secret, the environment becomes the point-update at that variable;
with neither source set, the call fails with the missing-credential message that
names the provider. -/
theorem claim_C4_resolveCredential :
    (∀ env secrets p v, p ≠ "" → v ≠ "" → env (readEnvVar p) = some v →
      setAPIKey env secrets (some p) = Except.ok env) ∧
    (∀ env secrets p w, p ≠ "" → w ≠ "" → env (readEnvVar p) = none →
      secrets (readSecretKey p) = some w →
      setAPIKey env secrets (some p) =
        Except.ok (fun k => if k = readEnvVar p then some w else env k)) ∧
    (∀ env secrets p, p ≠ "" → env (readEnvVar p) = none →
      secrets (readSecretKey p) = none →
      setAPIKey env secrets (some p) =
        Except.error ("No " ++ p ++ " API key configured. Please add an environment variable or save a key through the command palette above and try again.")) :=
  ⟨fun env secrets p v hp hv h => setAPIKey_env_present env secrets p v hp hv h,
   fun env secrets p w hp hw he hs => setAPIKey_from_store env secrets p w hp hw he hs,
   fun env secrets p hp he hs => setAPIKey_missing env secrets p hp he hs⟩

/-- Claim C4, witness: the three cases at the provider `anthropic` with concrete
environment and secret-store contents. -/
theorem claim_C4_witness :
    setAPIKey envWithAnthropicKey emptyStore (some "anthropic") =
      Except.ok envWithAnthropicKey ∧
    setAPIKey emptyStore storeWithAnthropicKey (some "anthropic") =
      Except.ok (fun k => if k = readEnvVar "anthropic" then some "sk-stored"
                          else emptyStore k) ∧
    setAPIKey emptyStore emptyStore (some "anthropic") =
      Except.error ("No anthropic API key configured. Please add an environment variable or save a key through the command palette above and try again.") :=
  ⟨claim_C4_resolveCredential.1 envWithAnthropicKey emptyStore "anthropic" "sk-env"
      (by decide) (by decide) (by decide),
   claim_C4_resolveCredential.2.1 emptyStore storeWithAnthropicKey "anthropic" "sk-stored"
      (by decide) (by decide) rfl (by decide),
   claim_C4_resolveCredential.2.2 emptyStore emptyStore "anthropic" (by decide) rfl rfl⟩

/-- Claim C5, counterexample: the input `python print(1)` contains no fence at all,
yet `extractPythonSnippets` returns the non-empty result `[print(1)]` — the claim's
third part, that every fence-free input maps to the empty sequence, is false. -/
theorem claim_C5_counterexample :
    containsSeq "```".data "python print(1)".data = false ∧
    extractPythonSnippets "python print(1)" ≠ [] ∧
    extractPythonSnippets "python print(1)" = ["print(1)"] := by decide

/-- Claim C5 as amended: the python-tagged example yields exactly `foo()` with the
7-character tag prefix stripped, a text-tagged block yields nothing, and any input
that contains no fence and does not itself begin with `python` yields the empty
sequence. -/
theorem claim_C5_amended :
    extractPythonSnippets "intro ```python\nfoo()\n``` outro" = ["foo()\n"] ∧
    extractPythonSnippets "intro ```text\nfoo()\n``` outro" = [] ∧
    ∀ s : String, containsSeq "```".data s.data = false →
      "python".data.isPrefixOf s.data = false → extractPythonSnippets s = [] :=
  ⟨by decide, by decide, fun s h1 h2 => extractPythonSnippets_of_plain s h1 h2⟩

/-- Claim C5, witness: the amended universal part applied to `hello world`. -/
theorem claim_C5_witness :
    containsSeq "```".data "hello world".data = false ∧
    "python".data.isPrefixOf "hello world".data = false ∧
    extractPythonSnippets "hello world" = [] :=
  ⟨by decide, by decide, claim_C5_amended.2.2 "hello world" (by decide) (by decide)⟩

/-- Claim C6: every string of the fixed provider and model enumerations contains no
`%2E`, and `decode` after `encode` restores it exactly. -/
theorem claim_C6_encode_decode_roundtrip :
    ∀ s ∈ allProviderModelStrings,
      containsSeq "%2E".data s.data = false ∧ decode (encode s) = s := by decide

/-- Claim C6, witness: the round-trip at the dotted model name `gemini-1.5-pro`. -/
theorem claim_C6_witness :
    containsSeq "%2E".data "gemini-1.5-pro".data = false ∧
    decode (encode "gemini-1.5-pro") = "gemini-1.5-pro" :=
  claim_C6_encode_decode_roundtrip "gemini-1.5-pro" (by decide)

/-- Claim C7: for every provider and every model allowed for it, persisting via
`setModel` and reading back through the constructor's configuration parse returns
exactly the pair passed in, and with no configured value the parse returns empty. -/
theorem claim_C7_selection_roundtrip :
    (∀ p ∈ supportedLLMProviders, ∀ m ∈ supportedModels p,
      getCurrentSelection (setModel p m).config = (some p, some m)) ∧
    getCurrentSelection none = (none, none) :=
  ⟨by decide, rfl⟩

/-- Claim C7, witness: the round-trip at the pair `(gemini, gemini-1.5-pro)`, whose
model name contains the escaped dot. -/
theorem claim_C7_witness :
    getCurrentSelection (setModel "gemini" "gemini-1.5-pro").config =
      (some "gemini", some "gemini-1.5-pro") :=
  claim_C7_selection_roundtrip.1 "gemini" (by decide) "gemini-1.5-pro" (by decide)

/-- Claim C8: with provider or model unset, `fixMyPipelineRequest` returns empty,
triggers the model-selection prompt and the error message, and issues no
chat-completion call, whatever the environment, secrets and network would do. -/
theorem claim_C8_no_selection (provider model : Option String) (env secrets : Env)
    (network : NetworkOutcome) (h : provider = none ∨ model = none) :
    fixMyPipelineRequest provider model env secrets network =
      { result := none, selectLLMCalled := true,
        errorMessages := ["No AI model selected. Please select one through the command palette above and try again."],
        registerKeyCmdCalled := false, networkCalled := false } := by
  rcases h with rfl | rfl
  · simp [fixMyPipelineRequest, jsTruthy]
  · simp [fixMyPipelineRequest, jsTruthy]

/-- Claim C8, witness: the fail-fast outcome at a concrete unselected state, even
with a network stub that would throw. -/
theorem claim_C8_witness :
    fixMyPipelineRequest none (some "gpt-4o") emptyStore emptyStore
        NetworkOutcome.throws =
      { result := none, selectLLMCalled := true,
        errorMessages := ["No AI model selected. Please select one through the command palette above and try again."],
        registerKeyCmdCalled := false, networkCalled := false } :=
  claim_C8_no_selection none (some "gpt-4o") emptyStore emptyStore
    NetworkOutcome.throws (Or.inl rfl)

/-- Claim C9: `extractPythonSnippets` does not check whether a `python`-prefixed
segment lies inside a fence: a block tagged `python3`, prose starting with `python`
right after a closing fence, and a fence-free text starting with `python` all
produce non-empty results, though none of these inputs contains a fenced block
whose language tag is exactly `python`. -/
theorem claim_C9_position_not_checked :
    containsSeq "```python\n".data "pre ```python3\nx()\n``` post".data = false ∧
    extractPythonSnippets "pre ```python3\nx()\n``` post" = ["\nx()\n"] ∧
    containsSeq "```python\n".data "```text\na\n```python prose".data = false ∧
    extractPythonSnippets "```text\na\n```python prose" = ["prose"] ∧
    containsSeq "```".data "python return 1".data = false ∧
    extractPythonSnippets "python return 1" = ["return 1"] := by decide

/-- Claim C10: for each quick-pick label of `registerLLMAPIKey`, the secret-store
key it writes equals the key `setAPIKey` reads for the lowercased provider, the
environment variable it sets equals the one `setAPIKey` checks, the lowercased
label is a supported provider, and consequently `setAPIKey` succeeds immediately
after a registration, preserving the registered environment. -/
theorem claim_C10_key_agreement :
    (∀ label ∈ registerLabels,
      registerSecretKey label = readSecretKey (toLowerJS label) ∧
      registerEnvVar label = readEnvVar (toLowerJS label) ∧
      supportedLLMProviders.contains (toLowerJS label) = true) ∧
    (∀ env secrets label apiKey, apiKey ≠ "" → label ∈ registerLabels →
      setAPIKey (registerLLMAPIKey env secrets label apiKey).1
        (registerLLMAPIKey env secrets label apiKey).2
        (some (toLowerJS label)) =
        Except.ok (registerLLMAPIKey env secrets label apiKey).1) := by
  constructor
  · decide
  · intro env secrets label apiKey hk hmem
    have hcases : label = "Anthropic" ∨ label = "Gemini" ∨ label = "OpenAI" := by
      simpa [registerLabels] using hmem
    rcases hcases with rfl | rfl | rfl <;>
      · apply setAPIKey_env_present _ _ _ apiKey (by decide) hk
        simp only [registerLLMAPIKey]
        rw [if_pos (by decide)]

/-- Claim C10, witness: key agreement and the register-then-resolve hand-off at the
label `Gemini` with a concrete key. -/
theorem claim_C10_witness :
    (registerSecretKey "Gemini" = readSecretKey (toLowerJS "Gemini") ∧
      registerEnvVar "Gemini" = readEnvVar (toLowerJS "Gemini") ∧
      supportedLLMProviders.contains (toLowerJS "Gemini") = true) ∧
    setAPIKey (registerLLMAPIKey emptyStore emptyStore "Gemini" "g-key").1
      (registerLLMAPIKey emptyStore emptyStore "Gemini" "g-key").2
      (some (toLowerJS "Gemini")) =
      Except.ok (registerLLMAPIKey emptyStore emptyStore "Gemini" "g-key").1 :=
  ⟨claim_C10_key_agreement.1 "Gemini" (by decide),
   claim_C10_key_agreement.2 emptyStore emptyStore "Gemini" "g-key" (by decide) (by decide)⟩
